import Mathlib

/-!
Shallow embedding of the support-email dashboard front end
(src/static/script.js) and proofs of its specified properties.

Conventions of the embedding:
  - JavaScript values that may be `undefined` are modelled as `Option`.
  - The DOM is modelled by explicit state records; rendering markup is
    abstracted to constructors recording what would be rendered.
  - Asynchronous backend outcomes are passed as explicit parameters to
    the handler functions, so each handler is a pure state transformer.
-/

namespace Dashboard

/-- Extracted-info sub-record attached to an email by the backend
(fields read via optional chaining in the source, hence all optional). -/
structure ExtractedInfo where
  customer_name : Option String
  request_summary : Option String
  sentiment : Option String
  priority : Option String
  contact_details : Option String
  deriving Repr, DecidableEq

/-- Email record as consumed by script.js (JSON array elements of
GET /fetch_emails). Fields other than `id` are read defensively. -/
structure Email where
  id : String
  subject : Option String
  sender : Option String
  body : Option String
  timestamp : Option String
  status : Option String
  extractedInfo : Option ExtractedInfo
  deriving Repr, DecidableEq

/-- Embedding of the JavaScript String.prototype.toLowerCase method,
written by structural recursion over the character list so that it
evaluates inside the kernel. -/
def jsToLower (s : String) : String :=
  ⟨s.data.map Char.toLower⟩

/-- Embedding of the JavaScript String.prototype.trim method: drop
leading and trailing whitespace, by structural recursion over the
character list. -/
def jsTrim (s : String) : String :=
  ⟨((s.data.dropWhile Char.isWhitespace).reverse.dropWhile Char.isWhitespace).reverse⟩

/-- Lowercased sentiment, `e.extractedInfo?.sentiment?.toLowerCase()`:
`none` when `extractedInfo` or its `sentiment` field is absent. -/
def lowerSentiment (e : Email) : Option String :=
  (e.extractedInfo.bind ExtractedInfo.sentiment).map jsToLower

/-- Lowercased priority, `e.extractedInfo?.priority?.toLowerCase()`. -/
def lowerPriority (e : Email) : Option String :=
  (e.extractedInfo.bind ExtractedInfo.priority).map jsToLower

/-- Count of records with status exactly "resolved" (script.js line 76). -/
def resolvedCount (emails : List Email) : Nat :=
  (emails.filter (fun e => e.status == some "resolved")).length

/-- Count of records whose status is anything other than "resolved",
including absent (script.js line 77). -/
def pendingCount (emails : List Email) : Nat :=
  (emails.filter (fun e => e.status != some "resolved")).length

/-- Per-sentiment counts computed in loadEmails (script.js lines 78-82). -/
structure SentimentCounts where
  positive : Nat
  neutral : Nat
  negative : Nat
  deriving Repr, DecidableEq

def sentimentCounts (emails : List Email) : SentimentCounts where
  positive := (emails.filter (fun e => lowerSentiment e == some "positive")).length
  neutral := (emails.filter (fun e => lowerSentiment e == some "neutral")).length
  negative := (emails.filter (fun e => lowerSentiment e == some "negative")).length

/-- Per-priority counts computed in loadEmails (script.js lines 83-86):
urgent is lowercased priority equal to "urgent", notUrgent is the
complement, including records with no priority at all. -/
structure PriorityCounts where
  urgent : Nat
  notUrgent : Nat
  deriving Repr, DecidableEq

def priorityCounts (emails : List Email) : PriorityCounts where
  urgent := (emails.filter (fun e => lowerPriority e == some "urgent")).length
  notUrgent := (emails.filter (fun e => lowerPriority e != some "urgent")).length

/-- Severity argument of showToast (script.js line 129). -/
inductive Severity where
  | success
  | error
  | warning
  deriving Repr, DecidableEq

/-- Toast notification: the message and severity passed to showToast. -/
structure Toast where
  message : String
  severity : Severity
  deriving Repr, DecidableEq

/-- Analytics panel DOM state written by updateAnalytics: the three
textual counts and the six bar widths (style.width percentages,
modelled as rationals since JavaScript division is exact here only up
to floating point; the guard structure is what matters). -/
structure AnalyticsPanel where
  totalEmails : Nat
  resolvedCount : Nat
  pendingCount : Nat
  resolvedBar : ℚ
  sentimentPositiveBar : ℚ
  sentimentNeutralBar : ℚ
  sentimentNegativeBar : ℚ
  priorityUrgentBar : ℚ
  priorityNotUrgentBar : ℚ
  deriving Repr, DecidableEq

/-- updateAnalytics (script.js lines 222-250). The resolved bar is set
from a ternary that yields 0 when total is 0; the sentiment and
priority bars are written only inside `if (total... > 0)` blocks, so
when a category total is 0 those bars keep their previous widths. -/
def updateAnalytics (total resolved pending : Nat)
    (sc : SentimentCounts) (pc : PriorityCounts)
    (panel : AnalyticsPanel) : AnalyticsPanel :=
  let resolvedPercentage : ℚ := if total > 0 then ((resolved : ℚ) / (total : ℚ)) * 100 else 0
  let panel := { panel with
    totalEmails := total, resolvedCount := resolved, pendingCount := pending,
    resolvedBar := resolvedPercentage }
  let totalSentiment := sc.positive + sc.neutral + sc.negative
  let panel :=
    if totalSentiment > 0 then
      { panel with
        sentimentPositiveBar := ((sc.positive : ℚ) / (totalSentiment : ℚ)) * 100,
        sentimentNeutralBar := ((sc.neutral : ℚ) / (totalSentiment : ℚ)) * 100,
        sentimentNegativeBar := ((sc.negative : ℚ) / (totalSentiment : ℚ)) * 100 }
    else panel
  let totalPriority := pc.urgent + pc.notUrgent
  if totalPriority > 0 then
    { panel with
      priorityUrgentBar := ((pc.urgent : ℚ) / (totalPriority : ℚ)) * 100,
      priorityNotUrgentBar := ((pc.notUrgent : ℚ) / (totalPriority : ℚ)) * 100 }
  else panel

/-- Content of the email list view container (emailListView.innerHTML),
abstracted to which renderer last wrote it. -/
inductive ListRender where
  | initial
  | spinner
  | emptyState
  | cards (emails : List Email)
  | errorMessage (msg : String)
  deriving Repr, DecidableEq

/-- In-memory front-end state touched by loadEmails: the emailsData
global, the list container, the analytics panel, and toasts shown so
far (appended in order). -/
structure AppState where
  emailsData : List Email
  listRender : ListRender
  analytics : AnalyticsPanel
  toasts : List Toast
  deriving Repr, DecidableEq

/-- Outcome of the GET /fetch_emails round trip, as observed by the
try/catch in loadEmails: a rejected promise (network failure or JSON
parse failure), a non-ok HTTP status (thrown, then caught), or a
parsed JSON array. -/
inductive FetchOutcome where
  | netFail
  | httpError (statusCode : Nat)
  | ok (emails : List Email)
  deriving Repr, DecidableEq

/-- Error toast shown by the catch block of loadEmails. -/
def loadFailToast : Toast :=
  { message := "Failed to load emails. Please try again later. ⚠️", severity := .error }

/-- loadEmails (script.js lines 55-94) as a state transformer. Second
component of the result records whether a network request was issued.
When currentUserId is null the function logs and returns at once;
otherwise it replaces emailsData wholesale on success, renders cards
or the empty state, and recomputes the analytics panel, while on any
failure it shows an error toast and the error placeholder, leaving
emailsData as it was. -/
def loadEmails (currentUserId : Option String) (st : AppState)
    (outcome : FetchOutcome) : AppState × Bool :=
  match currentUserId with
  | none => (st, false)
  | some _ =>
    match outcome with
    | .ok emails =>
      let render := if emails.length == 0 then ListRender.emptyState else ListRender.cards emails
      let panel := updateAnalytics emails.length (resolvedCount emails) (pendingCount emails)
        (sentimentCounts emails) (priorityCounts emails) st.analytics
      ({ st with emailsData := emails, listRender := render, analytics := panel }, true)
    | .netFail =>
      ({ st with
          listRender := .errorMessage "Failed to load emails. Please check your network.",
          toasts := st.toasts ++ [loadFailToast] }, true)
    | .httpError _ =>
      ({ st with
          listRender := .errorMessage "Failed to load emails. Please check your network.",
          toasts := st.toasts ++ [loadFailToast] }, true)

/-- Parsed JSON payload of POST /generate_response as read by
getAIResponse; every field may be absent. -/
structure GenPayload where
  status : Option String
  ai_response : Option String
  message : Option String
  deriving Repr, DecidableEq

/-- Outcome of the POST /generate_response round trip as observed by
the try/catch in getAIResponse. -/
inductive GenOutcome where
  | netFail
  | httpError (statusCode : Nat)
  | payload (data : GenPayload)
  deriving Repr, DecidableEq

/-- Literal fallback string returned by getAIResponse on any failure
(script.js line 115). -/
def aiFallbackMessage : String := "Failed to generate AI response. Please try again."

/-- Error toast shown by the catch block of getAIResponse. -/
def aiFailToast : Toast :=
  { message := "Failed to generate AI response. 🚫", severity := .error }

/-- getAIResponse (script.js lines 96-117): returns the value the JS
promise resolves to (an Option, since data.ai_response may be absent)
together with the toasts shown. Every branch, including the catch
block, returns normally, so the embedding is a total function: the
call never throws to its caller. -/
def getAIResponse (outcome : GenOutcome) : Option String × List Toast :=
  match outcome with
  | .netFail => (some aiFallbackMessage, [aiFailToast])
  | .httpError _ => (some aiFallbackMessage, [aiFailToast])
  | .payload data =>
    if data.status == some "success" then
      (data.ai_response, [])
    else
      (some aiFallbackMessage, [aiFailToast])

/-- Whether a /generate_response outcome takes the success path of
getAIResponse (HTTP ok, JSON parsed, and data.status === "success"). -/
def genSuccess (outcome : GenOutcome) : Bool :=
  match outcome with
  | .payload data => data.status == some "success"
  | _ => false

/-- Fixed polling period in milliseconds (script.js line 125). -/
def pollPeriodMs : Nat := 30000

/-- Absolute firing time of the n-th interval tick after startPolling:
setInterval with a fixed delay and no clearInterval anywhere in the
source, so the tick sequence is defined for every n. -/
def pollTickTime (n : Nat) : Nat := pollPeriodMs * (n + 1)

/-- Body of the setInterval callback in startPolling (script.js lines
121-124): reload only when the email list view does not carry the
hidden class. The first argument is the value of
emailListView.classList.contains applied to the hidden class. -/
def pollTick (listViewHidden : Bool) (currentUserId : Option String)
    (st : AppState) (outcome : FetchOutcome) : AppState × Bool :=
  if listViewHidden == false then
    loadEmails currentUserId st outcome
  else
    (st, false)

/-- Which of the two views is showing (exactly one of the list and
detail containers lacks the hidden class). -/
inductive ViewState where
  | list
  | detail (emailId : String)
  deriving Repr, DecidableEq

/-- Lookup by identifier in the current in-memory collection
(script.js line 256). -/
def findEmailById (emails : List Email) (emailId : String) : Option Email :=
  emails.find? (fun e => e.id == emailId)

/-- Card click handler on the list view (script.js lines 252-261):
looks the record up by the identifier taken from the card dataset and
opens the detail view only when the lookup succeeds; when it yields
nothing the handler simply falls through, changing nothing and showing
nothing. -/
def cardClick (emails : List Email) (emailId : String) (view : ViewState) : ViewState :=
  match findEmailById emails emailId with
  | some email => ViewState.detail email.id
  | none => view

/-- Auth globals of script.js (lines 28-30): currentUserId and
isAuthReady start as null and false. -/
structure AuthState where
  currentUserId : Option String
  isAuthReady : Bool
  deriving Repr, DecidableEq

def initialAuthState : AuthState := { currentUserId := none, isAuthReady := false }

/-- Events delivered to the onAuthStateChanged callback (script.js
lines 33-51): a signed-in user, a null user whose anonymous sign-in
attempt succeeds (the callback then fires again with a user), or a
null user whose anonymous sign-in attempt throws. -/
inductive AuthEvent where
  | signedIn (uid : String)
  | signedOutRetry
  | signedOutFail
  deriving Repr, DecidableEq

/-- State change performed by one invocation of the onAuthStateChanged
callback: a user sets currentUserId and readiness together; a failed
anonymous sign-in marks the session ready without a user id. -/
def authCallback (s : AuthState) (ev : AuthEvent) : AuthState :=
  match ev with
  | .signedIn uid => { currentUserId := some uid, isAuthReady := true }
  | .signedOutRetry => s
  | .signedOutFail => { s with isAuthReady := true }

/-- Auth state after a sequence of callback invocations from page load. -/
def runAuth (events : List AuthEvent) : AuthState :=
  events.foldl authCallback initialAuthState

/-- State of the send-response control. -/
structure SendBtnState where
  disabled : Bool
  label : String
  deriving Repr, DecidableEq

/-- Send control state written by the finally block of the submit
handler (script.js lines 350-353). -/
def sendBtnRestored : SendBtnState := { disabled := false, label := "Send Response" }

/-- Outcome of the POST /update_email_status round trip as observed by
the submit handler. The handler never checks response.ok, so any
parsed JSON body lands in the payload case regardless of HTTP status. -/
inductive SubmitOutcome where
  | netFail
  | payload (status : Option String) (message : Option String)
  deriving Repr, DecidableEq

def blankWarningToast : Toast :=
  { message := "Please write a response before sending. ⚠️", severity := .warning }

def sendSuccessToast : Toast :=
  { message := "Response sent successfully! ✅", severity := .success }

def sendFailToast : Toast :=
  { message := "Failed to send response. Please try again. 🚫", severity := .error }

/-- Result of one click on the send-response control: the final state
of the control, whether a network request was issued, the toasts
shown, and whether the handler triggered the go-back action (which
returns to the list view and reloads). -/
structure SendResult where
  btn : SendBtnState
  networkCall : Bool
  toasts : List Toast
  wentBack : Bool
  deriving Repr, DecidableEq

/-- Submit click handler (script.js lines 317-354). A blank trimmed
response returns before the control is touched and before any fetch;
otherwise the control is disabled for the duration and the finally
block restores it on every path. -/
def sendResponseClick (btn : SendBtnState) (finalResponse : String)
    (backend : SubmitOutcome) : SendResult :=
  if (jsTrim finalResponse) == "" then
    { btn := btn, networkCall := false, toasts := [blankWarningToast], wentBack := false }
  else
    match backend with
    | .payload status _ =>
      if status == some "success" then
        { btn := sendBtnRestored, networkCall := true,
          toasts := [sendSuccessToast], wentBack := true }
      else
        { btn := sendBtnRestored, networkCall := true,
          toasts := [sendFailToast], wentBack := false }
    | .netFail =>
      { btn := sendBtnRestored, networkCall := true,
        toasts := [sendFailToast], wentBack := false }

/-- Sample record used to instantiate proved theorems on concrete
inputs: mixed-case sentiment and priority strings. -/
def sampleEmail : Email :=
  { id := "abc"
    subject := some "Help"
    sender := some "user@example.com"
    body := some "please help"
    timestamp := none
    status := some "pending"
    extractedInfo := some
      { customer_name := some "User"
        request_summary := some "needs help"
        sentiment := some "POSITIVE"
        priority := some "Urgent"
        contact_details := none } }

/-- All-zero analytics panel. -/
def emptyPanel : AnalyticsPanel :=
  { totalEmails := 0, resolvedCount := 0, pendingCount := 0, resolvedBar := 0,
    sentimentPositiveBar := 0, sentimentNeutralBar := 0, sentimentNegativeBar := 0,
    priorityUrgentBar := 0, priorityNotUrgentBar := 0 }

/-- Front-end state right after the script initializes its globals. -/
def initialAppState : AppState :=
  { emailsData := [], listRender := .initial, analytics := emptyPanel, toasts := [] }

/-- A filter by a predicate and a filter by its negation partition a list. -/
theorem length_filter_add_length_filter_not {α : Type} (l : List α) (p : α → Bool) :
    (l.filter p).length + (l.filter (fun x => !(p x))).length = l.length := by
  induction l with
  | nil => rfl
  | cons a t ih =>
    cases h : p a <;> simp [List.filter_cons, h] <;> omega

theorem resolved_add_pending (emails : List Email) :
    resolvedCount emails + pendingCount emails = emails.length := by
  have h := length_filter_add_length_filter_not emails (fun e => e.status == some "resolved")
  simpa [resolvedCount, pendingCount, bne] using h

theorem urgent_add_notUrgent (emails : List Email) :
    (priorityCounts emails).urgent + (priorityCounts emails).notUrgent = emails.length := by
  have h := length_filter_add_length_filter_not emails (fun e => lowerPriority e == some "urgent")
  simpa [priorityCounts, bne] using h

/-- The count fields written by updateAnalytics are the arguments; the
bar guards do not touch them. -/
theorem updateAnalytics_counts (total resolved pending : Nat)
    (sc : SentimentCounts) (pc : PriorityCounts) (panel : AnalyticsPanel) :
    (updateAnalytics total resolved pending sc pc panel).totalEmails = total
    ∧ (updateAnalytics total resolved pending sc pc panel).resolvedCount = resolved
    ∧ (updateAnalytics total resolved pending sc pc panel).pendingCount = pending := by
  refine ⟨?_, ?_, ?_⟩ <;> (simp only [updateAnalytics]; split <;> split <;> rfl)

/-- C1: for every collection returned by a successful fetch, the resolved
count plus the pending count computed by loadEmails equals the total
number of records, both at the level of the counting functions and in
the analytics panel loadEmails writes. -/
theorem loadEmails_resolved_pending_partition (uid : String) (st : AppState)
    (emails : List Email) :
    resolvedCount emails + pendingCount emails = emails.length
    ∧ (loadEmails (some uid) st (FetchOutcome.ok emails)).1.analytics.resolvedCount
        + (loadEmails (some uid) st (FetchOutcome.ok emails)).1.analytics.pendingCount
      = (loadEmails (some uid) st (FetchOutcome.ok emails)).1.analytics.totalEmails := by
  have h := resolved_add_pending emails
  have hc := updateAnalytics_counts emails.length (resolvedCount emails) (pendingCount emails)
    (sentimentCounts emails) (priorityCounts emails) st.analytics
  refine ⟨h, ?_⟩
  simp only [loadEmails]
  rw [hc.1, hc.2.1, hc.2.2]
  exact h

/-- C2: for every non-empty collection, the urgent count plus the
not-urgent count computed by loadEmails equals the number of records;
not-urgent is the complement of urgent, including unset priority. -/
theorem priority_counts_complement (emails : List Email) (_h : emails ≠ []) :
    (priorityCounts emails).urgent + (priorityCounts emails).notUrgent = emails.length :=
  urgent_add_notUrgent emails

theorem priority_counts_complement_witness :
    ([sampleEmail] : List Email) ≠ []
    ∧ (priorityCounts [sampleEmail]).urgent + (priorityCounts [sampleEmail]).notUrgent = 1 :=
  ⟨by decide, priority_counts_complement [sampleEmail] (by decide)⟩

/-- C3: a blank trimmed response short-circuits the submit handler: no
network call, no state change, exactly one warning toast; and the
network request is issued precisely when the trimmed text is
non-empty. -/
theorem blank_response_no_network (btn : SendBtnState) (finalResponse : String)
    (backend : SubmitOutcome) :
    ((jsTrim finalResponse) = "" →
      sendResponseClick btn finalResponse backend =
        { btn := btn, networkCall := false, toasts := [blankWarningToast], wentBack := false })
    ∧ ((sendResponseClick btn finalResponse backend).networkCall = true ↔
        (jsTrim finalResponse) ≠ "") := by
  by_cases h : (jsTrim finalResponse) = ""
  · simp [sendResponseClick, h]
  · refine ⟨fun h2 => absurd h2 h, ?_⟩
    cases backend with
    | netFail => simp [sendResponseClick, h]
    | payload status message =>
      by_cases hs : status = some "success" <;> simp [sendResponseClick, h, hs]

theorem blank_response_no_network_witness :
    sendResponseClick sendBtnRestored "   " SubmitOutcome.netFail =
      { btn := sendBtnRestored, networkCall := false,
        toasts := [blankWarningToast], wentBack := false } :=
  (blank_response_no_network sendBtnRestored "   " SubmitOutcome.netFail).1 (by decide)

/-- C4: getAIResponse is a total function of the outcome: on every failing
outcome (network failure, non-ok HTTP status, or application-level
non-success status) it returns the literal fallback string together
with an error toast, and on the success path it returns the payload
field ai_response with no toast. -/
theorem getAIResponse_never_throws (outcome : GenOutcome) :
    (genSuccess outcome = false →
      getAIResponse outcome = (some aiFallbackMessage, [aiFailToast]))
    ∧ (∀ data : GenPayload, outcome = GenOutcome.payload data →
        genSuccess outcome = true →
        getAIResponse outcome = (data.ai_response, [])) := by
  cases outcome with
  | netFail => exact ⟨fun _ => rfl, fun data h => nomatch h⟩
  | httpError c => exact ⟨fun _ => rfl, fun data h => nomatch h⟩
  | payload data =>
    by_cases hs : data.status = some "success"
    · refine ⟨fun hfalse => ?_, fun d hd htrue => ?_⟩
      · exfalso; simp [genSuccess, hs] at hfalse
      · cases hd; simp [getAIResponse, hs]
    · refine ⟨fun _ => ?_, fun d hd htrue => ?_⟩
      · simp [getAIResponse, hs]
      · exfalso; simp [genSuccess, hs] at htrue

theorem getAIResponse_never_throws_witness :
    getAIResponse GenOutcome.netFail = (some aiFallbackMessage, [aiFailToast]) :=
  (getAIResponse_never_throws GenOutcome.netFail).1 rfl

/-- Analytics panel holding a stale positive-sentiment bar width. -/
def stalePanel : AnalyticsPanel :=
  { totalEmails := 2, resolvedCount := 1, pendingCount := 1, resolvedBar := 50,
    sentimentPositiveBar := 50, sentimentNeutralBar := 25, sentimentNegativeBar := 25,
    priorityUrgentBar := 0, priorityNotUrgentBar := 100 }

/-- C5 counterexample: with every sentiment count 0 the category total is
0, yet updateAnalytics leaves the positive-sentiment bar at its
previous width 50 instead of defining the percentage as 0. -/
theorem updateAnalytics_zero_total_keeps_stale_bar :
    (updateAnalytics 0 0 0 ⟨0, 0, 0⟩ ⟨0, 0⟩ stalePanel).sentimentPositiveBar = 50
    ∧ (50 : ℚ) ≠ 0 := by
  refine ⟨rfl, by norm_num⟩

/-- C5 amended: the resolved bar equals resolved divided by total times
100 when total is positive and is defined as 0 when total is 0; the
sentiment and priority bars equal count divided by category total
times 100 when that total is positive, and are left unchanged (not set
to 0) when it is 0; every division updateAnalytics performs therefore
has a positive divisor. -/
theorem updateAnalytics_bar_guards (total resolved pending : Nat)
    (sc : SentimentCounts) (pc : PriorityCounts) (panel : AnalyticsPanel) :
    (updateAnalytics total resolved pending sc pc panel).resolvedBar
      = (if total > 0 then ((resolved : ℚ) / (total : ℚ)) * 100 else 0)
    ∧ (updateAnalytics total resolved pending sc pc panel).sentimentPositiveBar
      = (if sc.positive + sc.neutral + sc.negative > 0 then
          ((sc.positive : ℚ) / ((sc.positive + sc.neutral + sc.negative : Nat) : ℚ)) * 100
        else panel.sentimentPositiveBar)
    ∧ (updateAnalytics total resolved pending sc pc panel).sentimentNeutralBar
      = (if sc.positive + sc.neutral + sc.negative > 0 then
          ((sc.neutral : ℚ) / ((sc.positive + sc.neutral + sc.negative : Nat) : ℚ)) * 100
        else panel.sentimentNeutralBar)
    ∧ (updateAnalytics total resolved pending sc pc panel).sentimentNegativeBar
      = (if sc.positive + sc.neutral + sc.negative > 0 then
          ((sc.negative : ℚ) / ((sc.positive + sc.neutral + sc.negative : Nat) : ℚ)) * 100
        else panel.sentimentNegativeBar)
    ∧ (updateAnalytics total resolved pending sc pc panel).priorityUrgentBar
      = (if pc.urgent + pc.notUrgent > 0 then
          ((pc.urgent : ℚ) / ((pc.urgent + pc.notUrgent : Nat) : ℚ)) * 100
        else panel.priorityUrgentBar)
    ∧ (updateAnalytics total resolved pending sc pc panel).priorityNotUrgentBar
      = (if pc.urgent + pc.notUrgent > 0 then
          ((pc.notUrgent : ℚ) / ((pc.urgent + pc.notUrgent : Nat) : ℚ)) * 100
        else panel.priorityNotUrgentBar) := by
  by_cases hs : sc.positive + sc.neutral + sc.negative > 0 <;>
    by_cases hp : pc.urgent + pc.notUrgent > 0 <;>
      simp [updateAnalytics, hs, hp]

/-- C6: clicking a card whose identifier is not in the current in-memory
collection makes the lookup yield nothing, and the handler leaves the
view unchanged, showing no record. -/
theorem missing_card_click_yields_nothing (emails : List Email) (emailId : String)
    (view : ViewState) (h : ∀ e ∈ emails, e.id ≠ emailId) :
    findEmailById emails emailId = none ∧ cardClick emails emailId view = view := by
  have hf : findEmailById emails emailId = none := by
    simp only [findEmailById, List.find?_eq_none]
    intro e he
    simpa using h e he
  exact ⟨hf, by simp [cardClick, hf]⟩

theorem missing_card_click_yields_nothing_witness :
    findEmailById [sampleEmail] "abc123" = none
    ∧ cardClick [sampleEmail] "abc123" ViewState.list = ViewState.list :=
  missing_card_click_yields_nothing [sampleEmail] "abc123" ViewState.list (by decide)

/-- C7: the tick times of the polling driver are 30 seconds apart for
every tick index (the timer is defined at every index and the source
never clears it), a tick while the list view is hidden behind the
detail view is a no-op issuing no request and changing no state, and a
tick while the list view is visible performs exactly the loadEmails
reload. -/
theorem polling_period_and_guard :
    (∀ n : Nat, pollTickTime (n + 1) = pollTickTime n + 30000)
    ∧ (∀ (currentUserId : Option String) (st : AppState) (outcome : FetchOutcome),
        pollTick true currentUserId st outcome = (st, false))
    ∧ (∀ (currentUserId : Option String) (st : AppState) (outcome : FetchOutcome),
        pollTick false currentUserId st outcome = loadEmails currentUserId st outcome) := by
  refine ⟨fun n => ?_, fun u st o => rfl, fun u st o => rfl⟩
  simp only [pollTickTime, pollPeriodMs]
  omega

/-- In every auth state reachable from page load, a session that is not
yet marked ready has no user identifier. -/
theorem runAuth_not_ready_no_user (events : List AuthEvent) :
    (runAuth events).isAuthReady = false → (runAuth events).currentUserId = none := by
  have key : ∀ (evs : List AuthEvent) (s : AuthState),
      (s.isAuthReady = false → s.currentUserId = none) →
      ((evs.foldl authCallback s).isAuthReady = false →
        (evs.foldl authCallback s).currentUserId = none) := by
    intro evs
    induction evs with
    | nil => exact fun s hs => hs
    | cons ev rest ih =>
      intro s hs
      simp only [List.foldl_cons]
      apply ih
      cases ev with
      | signedIn uid => intro hcontra; simp [authCallback] at hcontra
      | signedOutRetry => exact hs
      | signedOutFail => intro hcontra; simp [authCallback] at hcontra
  exact key events initialAuthState (fun _ => rfl)

/-- C8: every call to loadEmails made while the session is not yet ready
is a no-op: reachable auth states that are not ready carry no user
identifier, and loadEmails with a null user identifier returns at
once, issuing no request and leaving the collection, the analytics
panel, and the rendered view untouched. -/
theorem loadEmails_noop_before_ready (events : List AuthEvent) (st : AppState)
    (outcome : FetchOutcome) (h : (runAuth events).isAuthReady = false) :
    loadEmails (runAuth events).currentUserId st outcome = (st, false) := by
  rw [runAuth_not_ready_no_user events h]
  rfl

theorem loadEmails_noop_before_ready_witness :
    (runAuth []).isAuthReady = false
    ∧ loadEmails (runAuth []).currentUserId initialAppState
        (FetchOutcome.ok [sampleEmail]) = (initialAppState, false) :=
  ⟨rfl, loadEmails_noop_before_ready [] initialAppState (FetchOutcome.ok [sampleEmail]) rfl⟩

/-- C9: the analytics classification is case-insensitive: a record is in
the filtered set backing each sentiment count exactly when its
lowercased sentiment string equals the category name, is in the set
backing the urgent count exactly when its lowercased priority string
equals "urgent", and is in the set backing the not-urgent count
exactly when it does not, which covers unset and unrecognized values. -/
theorem classification_case_insensitive (emails : List Email) (e : Email)
    (h : e ∈ emails) :
    (e ∈ emails.filter (fun x => lowerSentiment x == some "positive") ↔
      (e.extractedInfo.bind ExtractedInfo.sentiment).map jsToLower = some "positive")
    ∧ (e ∈ emails.filter (fun x => lowerSentiment x == some "neutral") ↔
      (e.extractedInfo.bind ExtractedInfo.sentiment).map jsToLower = some "neutral")
    ∧ (e ∈ emails.filter (fun x => lowerSentiment x == some "negative") ↔
      (e.extractedInfo.bind ExtractedInfo.sentiment).map jsToLower = some "negative")
    ∧ (e ∈ emails.filter (fun x => lowerPriority x == some "urgent") ↔
      (e.extractedInfo.bind ExtractedInfo.priority).map jsToLower = some "urgent")
    ∧ (e ∈ emails.filter (fun x => lowerPriority x != some "urgent") ↔
      ¬ (e.extractedInfo.bind ExtractedInfo.priority).map jsToLower = some "urgent") := by
  refine ⟨?_, ?_, ?_, ?_, ?_⟩ <;>
    simp [List.mem_filter, h, lowerSentiment, lowerPriority]

theorem classification_case_insensitive_witness :
    sampleEmail ∈ [sampleEmail].filter (fun x => lowerSentiment x == some "positive")
    ∧ sampleEmail ∈ [sampleEmail].filter (fun x => lowerPriority x == some "urgent") :=
  ⟨((classification_case_insensitive [sampleEmail] sampleEmail (by decide)).1).mpr (by decide),
   ((classification_case_insensitive [sampleEmail] sampleEmail
      (by decide)).2.2.2.1).mpr (by decide)⟩

/-- C10: after every completed submit attempt that passed the non-blank
check, on success, application-level failure, and network failure
alike, the finally block leaves the send control enabled with label
"Send Response". -/
theorem send_button_restored_after_attempt (btn : SendBtnState) (finalResponse : String)
    (backend : SubmitOutcome) (h : (jsTrim finalResponse) ≠ "") :
    (sendResponseClick btn finalResponse backend).btn = sendBtnRestored := by
  cases backend with
  | netFail => simp [sendResponseClick, h]
  | payload status message =>
    by_cases hs : status = some "success" <;> simp [sendResponseClick, h, hs]

theorem send_button_restored_after_attempt_witness :
    (sendResponseClick sendBtnRestored "Thanks for reaching out"
      SubmitOutcome.netFail).btn = sendBtnRestored :=
  send_button_restored_after_attempt sendBtnRestored "Thanks for reaching out"
    SubmitOutcome.netFail (by decide)

end Dashboard
